import Mathlib

set_option maxRecDepth 4000

/-!
Verification development for the AnonXMusic call-orchestration and media
acquisition core (`anony/core/calls.py`, `anony/core/youtube.py`,
`anony/core/telegram.py`).

The Python sources are shallowly embedded:

* `anony/core/youtube.py` — the cookie pool (`get_cookies`,
  `invalidate_cookie`, `save_cookies`), the retrying `download` loop and the
  cache helpers (`is_cached` / `cached_path` / `purge_cache`).  The
  filesystem is a list of path strings; randomness and network outcomes are
  oracle functions passed in as parameters.
* `anony/core/telegram.py` — `PLATFORM_PATTERNS` and `detect_platform`,
  over an executable regular-expression matcher (Brzozowski derivatives)
  implementing Python `re.search` semantics (match anywhere, any length,
  case-insensitive via lowercasing).
* `anony/core/calls.py` — `TgCall.stop`, `TgCall.play_media`,
  `TgCall.play_next` and `TgCall.set_volume`.  The asyncio coroutines are
  compiled to lists of atomic steps separated at their suspension points
  (`await`s); a small-step scheduler executes any interleaving of tasks,
  with per-chat lock entries (`self._locks`), non-reentrant lock objects
  identified by numbers, and an effect log recording external calls
  (transport, DB, messaging).
-/
/-! ## Filesystem model shared by the youtube.py embedding

`downloads/{id}.{ext}` paths as in `DOWNLOAD_DIR / f"{video_id}.{ext}"`. -/
def DOWNLOAD_DIR : String := "downloads"

/-- The cached artifact path for a video id: `.mp4` when video, `.webm` otherwise. -/
def cacheFile (video_id : String) (video : Bool) : String :=
  DOWNLOAD_DIR ++ "/" ++ video_id ++ (if video then ".mp4" else ".webm")

/-- `YouTube.is_cached`: the file already exists in `DOWNLOAD_DIR`. -/
def is_cached (fs : List String) (video_id : String) (video : Bool) : Bool :=
  fs.contains (cacheFile video_id video)

/-- `YouTube.cached_path`: the cached file path string if it exists, else `None`. -/
def cached_path (fs : List String) (video_id : String) (video : Bool) : Option String :=
  if fs.contains (cacheFile video_id video) then some (cacheFile video_id video) else none

/-- `YouTube.purge_cache`: delete both `.webm` and `.mp4` cached files for a
video id (`p.unlink()` for each extension when present). -/
def purge_cache (fs : List String) (video_id : String) : List String :=
  fs.filter (fun p => !(p == cacheFile video_id false) && !(p == cacheFile video_id true))

/-! ## Volume control (`TgCall.set_volume`)

`volume = max(0, min(200, volume))` and then
`client.change_volume_call(chat_id, volume)` whose boolean result is returned. -/
/-- The clamping performed by `TgCall.set_volume` before delegating. -/
def clampVolume (v : Int) : Int := max 0 (min 200 v)

/-- `TgCall.set_volume`, with the transport's `change_volume_call` abstracted
as a function from the (clamped) value to its boolean result. -/
def set_volume (change_volume_call : Int → Bool) (v : Int) : Bool :=
  change_volume_call (clampVolume v)

/-! ## Cookie pool (`YouTube` cookie management)

State of the `YouTube` object restricted to the cookie pool: the in-memory
list `self.cookies`, the lazy-load flag `self._checked`, the one-time
warning flag `self._warned`, and the set of file names present in
`anony/cookies` (the model keeps the names; `_load_cookies` prefixes the
directory).  `invalidate_cookie` only mutates the in-memory list — the
file stays on disk. -/
structure YtSt where
  cookies : List String
  checked : Bool
  warned : Bool
  dir : List String
  deriving DecidableEq, Repr

/-- Python `str.endswith`, over the character lists (the built-in
`String.endsWith` does not evaluate inside the kernel). -/
def str_endswith (s suffix : String) : Bool := suffix.data.isSuffixOf s.data

/-- `YouTube._load_cookies`: populate the pool from the directory listing
once (`.txt` files only); a no-op when `self._checked` is already set. -/
def load_cookies (s : YtSt) : YtSt :=
  if s.checked then s
  else { s with
          cookies := (s.dir.filter (fun f => str_endswith f ".txt")).map
            (fun f => "anony/cookies/" ++ f),
          checked := true }

/-- `YouTube.get_cookies`: lazily load, then return a random pool element
(`random.choice`, modelled by an index `r` reduced mod the pool size), or
`None` with a one-time warning when the pool is empty. -/
def get_cookies (r : Nat) (s : YtSt) : Option String × YtSt :=
  let s := load_cookies s
  if s.cookies.isEmpty then
    (none, if s.warned then s else { s with warned := true })
  else
    (s.cookies.get? (r % s.cookies.length), s)

/-- `YouTube.invalidate_cookie`: drop a cookie from the pool if it is a
real path still present in `self.cookies` (Python `list.remove` deletes the
first occurrence). -/
def invalidate_cookie (cookie_path : Option String) (s : YtSt) : YtSt :=
  match cookie_path with
  | none => s
  | some p => if p ∈ s.cookies then { s with cookies := s.cookies.erase p } else s

/-- `YouTube.save_cookies`: persist fetched cookie payloads as
`{slug}.txt` in the cookie directory (failures are logged and skipped;
`saved` is the list of slugs whose fetch succeeded, in order), then reset
`self._checked` and reload the pool. -/
def save_cookies (saved : List String) (s : YtSt) : YtSt :=
  let s := saved.foldl
    (fun s slug =>
      let name := slug ++ ".txt"
      { s with dir := if name ∈ s.dir then s.dir else s.dir ++ [name] }) s
  load_cookies { s with checked := false }

/-! ## The retrying download loop (`YouTube.download`)

Oracles: `fetch k` is the outcome of the `yt_dlp` fetch on attempt `k`
(1-based) — success (output file produced), success with the output file
missing, a `DownloadError`/`ExtractorError`, or any other exception —
and `rand k` drives that attempt's `random.choice`.  The loop records, per
attempt, the cookie drawn and the outcome. -/
inductive FetchOutcome where
  | ok
  | okMissing
  | dlError
  | otherError
  deriving DecidableEq, Repr

structure DlRes where
  result : Option String
  st : YtSt
  attempts : Nat
  removed : List String
  log : List (Option String × FetchOutcome)
  deriving Repr

/-- The `for attempt in range(1, MAX_RETRIES + 1)` body of
`YouTube.download`: draw a cookie, fetch; on success return the filename
(only when the file exists); on `DownloadError`/`ExtractorError` invalidate
the drawn cookie and retry; on any other exception retry without
invalidating.  `fuel` is the number of attempts remaining, `k` the 1-based
attempt counter. -/
def download_loop (fetch : Nat → FetchOutcome) (rand : Nat → Nat)
    (video_id : String) (video : Bool) : Nat → Nat → YtSt → DlRes
  | 0, _, s => { result := none, st := s, attempts := 0, removed := [], log := [] }
  | fuel + 1, k, s =>
    let drawn := get_cookies (rand k) s
    let c := drawn.1
    let s1 := drawn.2
    match fetch k with
    | .ok =>
        { result := some (cacheFile video_id video), st := s1, attempts := 1,
          removed := [], log := [(c, .ok)] }
    | .okMissing =>
        let r := download_loop fetch rand video_id video fuel (k + 1) s1
        { r with attempts := r.attempts + 1, log := (c, .okMissing) :: r.log }
    | .dlError =>
        let rmHere : List String :=
          match c with
          | some p => if p ∈ s1.cookies then [p] else []
          | none => []
        let s2 := invalidate_cookie c s1
        let r := download_loop fetch rand video_id video fuel (k + 1) s2
        { r with attempts := r.attempts + 1, removed := rmHere ++ r.removed,
                 log := (c, .dlError) :: r.log }
    | .otherError =>
        let r := download_loop fetch rand video_id video fuel (k + 1) s1
        { r with attempts := r.attempts + 1, log := (c, .otherError) :: r.log }

def MAX_RETRIES : Nat := 3

/-- The duration guard of `YouTube.download`: with `info` the `get_info`
metadata (`none` when `get_info` failed, otherwise the reported duration,
`0` standing for a falsy/absent duration), the guard rejects when
`duration and duration > config.DURATION_LIMIT`. -/
def duration_guard_fails (info : Option Nat) (durationLimit : Nat) : Bool :=
  match info with
  | some d => decide (d ≠ 0) && decide (d > durationLimit)
  | none => false

/-- `YouTube.download`: cache check first; then the duration guard over the
`get_info` metadata (`get_info` itself draws a cookie, which loads the
pool); then the retry loop. -/
def download (fetch : Nat → FetchOutcome) (rand : Nat → Nat) (fs : List String)
    (info : Option Nat) (durationLimit : Nat)
    (video_id : String) (video : Bool) (s : YtSt) : DlRes :=
  if fs.contains (cacheFile video_id video) then
    { result := some (cacheFile video_id video), st := s, attempts := 0,
      removed := [], log := [] }
  else
    let s := (get_cookies (rand 0) s).2
    if duration_guard_fails info durationLimit then
      { result := none, st := s, attempts := 0, removed := [], log := [] }
    else
      download_loop fetch rand video_id video MAX_RETRIES 1 s

/-! ## Pool operation sequences (for the CookiePool invariant) -/
/-- A draw/invalidate-only operation on the pool (no refresh). -/
inductive PoolOp where
  | draw (r : Nat)
  | invalid (p : String)

/-- An arbitrary pool operation, including `save_cookies` refreshes. -/
inductive CkOp where
  | draw (r : Nat)
  | invalid (p : String)
  | refresh (saved : List String)

/-- Run draw/invalidate operations, collecting the draw results. -/
def runPoolOps : List PoolOp → YtSt → YtSt × List (Option String)
  | [], s => (s, [])
  | PoolOp.draw r :: ops, s =>
      let d := get_cookies r s
      let rest := runPoolOps ops d.2
      (rest.1, d.1 :: rest.2)
  | PoolOp.invalid p :: ops, s => runPoolOps ops (invalidate_cookie (some p) s)

/-- Run arbitrary pool operations (draw, invalidate, refresh), collecting
the draw results. -/
def runCkOps : List CkOp → YtSt → YtSt × List (Option String)
  | [], s => (s, [])
  | CkOp.draw r :: ops, s =>
      let d := get_cookies r s
      let rest := runCkOps ops d.2
      (rest.1, d.1 :: rest.2)
  | CkOp.invalid p :: ops, s => runCkOps ops (invalidate_cookie (some p) s)
  | CkOp.refresh saved :: ops, s => runCkOps ops (save_cookies saved s)

/-! ## Regular expressions for `detect_platform` (`anony/core/telegram.py`)

An executable regex matcher via Brzozowski derivatives.  Character classes
are predicates; smart constructors keep derivatives small.  `reSearch`
implements Python `re.search` (a match may start at any position and end
anywhere); `re.IGNORECASE` is modelled by lowercasing the URL, all pattern
literals being lowercase. -/
inductive RE where
  | eps
  | fail
  | cls (p : Char → Bool)
  | cat (a b : RE)
  | alt (a b : RE)
  | star (r : RE)

def RE.nullable : RE → Bool
  | .eps => true
  | .fail => false
  | .cls _ => false
  | .cat a b => a.nullable && b.nullable
  | .alt a b => a.nullable || b.nullable
  | .star _ => true

/-- Smart concatenation. -/
def RE.catS : RE → RE → RE
  | .fail, _ => .fail
  | _, .fail => .fail
  | .eps, b => b
  | a, .eps => a
  | a, b => .cat a b

/-- Smart alternation. -/
def RE.altS : RE → RE → RE
  | .fail, b => b
  | a, .fail => a
  | a, b => .alt a b

def RE.deriv : RE → Char → RE
  | .eps, _ => .fail
  | .fail, _ => .fail
  | .cls p, c => if p c then .eps else .fail
  | .cat a b, c =>
      if a.nullable then RE.altS (RE.catS (a.deriv c) b) (b.deriv c)
      else RE.catS (a.deriv c) b
  | .alt a b, c => RE.altS (a.deriv c) (b.deriv c)
  | .star r, c => RE.catS (r.deriv c) (.star r)

/-- Does `r` match some prefix of `s`? -/
def RE.matchPre : RE → List Char → Bool
  | r, [] => r.nullable
  | r, c :: cs => r.nullable || RE.matchPre (r.deriv c) cs

/-- Does `r` match some substring of `s` (Python `re.search`)? -/
def RE.searchList (r : RE) : List Char → Bool
  | [] => r.matchPre []
  | c :: cs => r.matchPre (c :: cs) || r.searchList cs

def reSearch (r : RE) (s : String) : Bool := r.searchList s.data

/-! Pattern combinators mirroring the regex syntax used in the table. -/
def chr (c : Char) : RE := .cls (fun d => d == c)

/-- A literal string. -/
def rstr (s : String) : RE := s.data.foldr (fun c r => .cat (chr c) r) .eps

/-- `r+` -/
def rplus (r : RE) : RE := .cat r (.star r)

/-- `r?` (as in `(?:...)?`) -/
def ropt (r : RE) : RE := .alt r .eps

def seqL (rs : List RE) : RE := rs.foldr RE.cat .eps

/-- `\w` (ASCII view, as these URLs are ASCII). -/
def wChar (c : Char) : Bool := c.isAlphanum || c == '_'

/-- `[\w-]` -/
def wDash (c : Char) : Bool := wChar c || c == '-'

/-- `[\w.-]` -/
def wDotDash (c : Char) : Bool := wChar c || c == '.' || c == '-'

/-- `[\w.]` -/
def wDot (c : Char) : Bool := wChar c || c == '.'

/-- The class of word characters, dash and forward slash. -/
def wDashSlash (c : Char) : Bool := wChar c || c == '-' || c == '/'

/-- `\d` -/
def dChar (c : Char) : Bool := c.isDigit

/-- `\S` -/
def sChar (c : Char) : Bool := !c.isWhitespace

/-- `(?:https?://)?` -/
def httpOpt : RE := ropt (seqL [rstr "http", ropt (chr 's'), rstr "://"])

/-- `(?:www\.)?` -/
def wwwOpt : RE := ropt (rstr "www.")

/-- `PLATFORM_PATTERNS`: the ordered table of platform URL patterns from
`anony/core/telegram.py` (dict insertion order), each Python regex
transcribed to an `RE`. -/
def PLATFORM_PATTERNS : List (String × List RE) :=
  [ ("youtube",
      [ seqL [httpOpt, ropt (RE.alt (rstr "www.") (rstr "m.")),
              rstr "youtube.com/watch?v=", rplus (.cls wDash)],
        seqL [httpOpt, rstr "youtu.be/", rplus (.cls wDash)],
        seqL [httpOpt, wwwOpt, rstr "youtube.com/shorts/", rplus (.cls wDash)],
        seqL [httpOpt, rstr "music.youtube.com/watch?v=", rplus (.cls wDash)] ]),
    ("spotify",
      [ seqL [httpOpt, rstr "open.spotify.com/",
              RE.alt (rstr "track")
                (RE.alt (rstr "album") (RE.alt (rstr "playlist") (rstr "episode"))),
              rstr "/", rplus (.cls wChar)] ]),
    ("soundcloud",
      [ seqL [httpOpt, wwwOpt, rstr "soundcloud.com/", rplus (.cls wDash),
              rstr "/", rplus (.cls wDash)],
        seqL [httpOpt, rstr "on.soundcloud.com/", rplus (.cls wDash)] ]),
    ("apple_music",
      [ seqL [httpOpt, rstr "music.apple.com/", rplus (.cls wDash), rstr "/",
              RE.alt (rstr "album") (RE.alt (rstr "playlist") (rstr "song")),
              rstr "/", rplus (.cls wDashSlash)] ]),
    ("instagram",
      [ seqL [httpOpt, wwwOpt, rstr "instagram.com/",
              RE.alt (rstr "p") (RE.alt (rstr "reel") (rstr "tv")),
              rstr "/", rplus (.cls wDash)] ]),
    ("facebook",
      [ seqL [httpOpt, wwwOpt, rstr "facebook.com/",
              RE.alt (rstr "watch?v=") (seqL [rplus (.cls wDot), rstr "/videos/"]),
              rplus (.cls wDash)],
        seqL [httpOpt, rstr "fb.watch/", rplus (.cls wDash)] ]),
    ("twitter",
      [ seqL [httpOpt, wwwOpt, RE.alt (rstr "twitter") (rstr "x"), rstr ".com/",
              rplus (.cls wDash), rstr "/status/", rplus (.cls dChar)] ]),
    ("tiktok",
      [ seqL [httpOpt, wwwOpt, rstr "tiktok.com/@", rplus (.cls wDotDash),
              rstr "/video/", rplus (.cls dChar)],
        seqL [httpOpt, rstr "vm.tiktok.com/", rplus (.cls wDash)],
        seqL [httpOpt, rstr "vt.tiktok.com/", rplus (.cls wDash)] ]),
    ("twitch",
      [ seqL [httpOpt, wwwOpt, rstr "twitch.tv/videos/", rplus (.cls dChar)],
        seqL [httpOpt, rstr "clips.twitch.tv/", rplus (.cls wDash)],
        seqL [httpOpt, wwwOpt, rstr "twitch.tv/", rplus (.cls wDash),
              rstr "/clip/", rplus (.cls wDash)] ]),
    ("deezer",
      [ seqL [httpOpt, wwwOpt, rstr "deezer.com/",
              ropt (seqL [rplus (.cls wDash), rstr "/"]),
              RE.alt (rstr "track") (RE.alt (rstr "album") (rstr "playlist")),
              rstr "/", rplus (.cls dChar)] ]),
    ("jiosaavn",
      [ seqL [httpOpt, wwwOpt, rstr "jiosaavn.com/song/", rplus (.cls wDash)],
        seqL [httpOpt, wwwOpt, rstr "jiosaavn.com/album/", rplus (.cls wDash)] ]),
    ("gaana",
      [ seqL [httpOpt, wwwOpt, rstr "gaana.com/song/", rplus (.cls wDash)] ]),
    ("vimeo",
      [ seqL [httpOpt, wwwOpt, rstr "vimeo.com/", rplus (.cls dChar)],
        seqL [httpOpt, rstr "player.vimeo.com/video/", rplus (.cls dChar)] ]),
    ("dailymotion",
      [ seqL [httpOpt, wwwOpt, rstr "dailymotion.com/video/", rplus (.cls wDash)],
        seqL [httpOpt, rstr "dai.ly/", rplus (.cls wDash)] ]),
    ("m3u8",
      [ seqL [rstr "http", ropt (chr 's'), rstr "://", rplus (.cls sChar),
              rstr ".m3u8", ropt (RE.cat (chr '?') (.star (.cls sChar)))] ]),
    ("telegram", []) ]

/-- The scan of `detect_platform`: first platform one of whose patterns
matches (via `re.search`) wins; `"unknown"` if none. -/
def detectAux (url : List Char) : List (String × List RE) → String
  | [] => "unknown"
  | (tag, pats) :: rest =>
      if pats.any (fun r => r.searchList url) then tag else detectAux url rest

/-- `detect_platform` from `anony/core/telegram.py` (`re.IGNORECASE` is
realised by lowercasing the URL; the pattern literals are lowercase). -/
def detect_platform (url : String) : String :=
  detectAux (url.data.map Char.toLower) PLATFORM_PATTERNS

/-- The cookie a `DownloadError` attempt invalidates. -/
def dlErrCookie : Option String × FetchOutcome → Option String
  | (c, FetchOutcome.dlError) => c
  | _ => none

/-! ## The call orchestrator (`anony/core/calls.py`)

`TgCall` keeps one `asyncio.Lock` per chat in `self._locks`; `stop` and
`play_media` wrap their whole bodies in `async with self._lock(chat_id)`.
The model fixes one chat and compiles each coroutine body to a list of
`Step`s: one step per suspension point (`await`), each carrying the
external effect of the awaited call plus the synchronous code run after it
returns (occasionally a purely synchronous chunk is modelled as its own
step, which only refines the interleaving granularity).  Lock objects are
numbered; `Step.acquire` is `await lock.acquire()` on the chat's entry
(created on demand, exactly `TgCall._lock`), remembering the lock object
being awaited — asyncio locks are not reentrant, so a task acquiring a
lock that is already held (even by itself) blocks.  `Step.releaseL`
releases the most recently acquired lock (`async with` exit). -/
/-- A `Media`/`Track` descriptor (the fields `play_media`/`play_next`
touch: id, title, duration, url, user, `file_path`, `video`, the
play-offset marker `time` and the now-playing `message_id`). -/
structure MediaD where
  mid : String
  title : String
  duration : String
  url : String
  user : String
  file_path : String
  video : Bool
  time : Nat
  message_id : Nat
  deriving DecidableEq, Repr

/-- External calls recorded by the model (transport, DB, messaging). -/
inductive Eff where
  | getAssistant
  | getLang
  | genThumb
  | queueCleared
  | removeCallE
  | leaveCall
  | playAttempt (path : String) (ffmpegSeek : Option Nat)
  | editMsg (tag : String)
  | addCallE
  | nowPlayingMsg
  | deleteMsg (mid : Nat)
  | sendMsgE (tag : String)
  | downloadE (vid : String)
  deriving DecidableEq, Repr

/-- The per-chat state outside the lock registry: the chat's queue (head =
current), the persisted call-state flag (`db.add_call`/`db.remove_call`),
the descriptor object passed to the `play_media` invocation under study,
and the chronological effect log. -/
structure CallSt where
  queue : List MediaD
  dbCall : Bool
  media : MediaD
  effects : List Eff
  deriving DecidableEq, Repr

/-- Atomic actions (pieces of the coroutine bodies between suspensions). -/
inductive Act where
  | logGetAssistant
  | logGetLang
  | logGenThumb
  | clearQueue
  | removeCall
  | popEntry
  | logLeaveCall
  | playAttempt (path : String) (ff : Option Nat)
  | logEdit (tag : String)
  | markStarted
  | addCall
  | nowPlaying
  | setMediaMsgId (k : Nat)
  | safeDelete (k : Nat)
  | clearHeadMsgId
  | queuePop
  | sendMsg (tag : String)
  | setHeadMsgId (k : Nat)
  | download (vid : String)
  | setHeadPath (pth : String)
  deriving DecidableEq, Repr

/-- Update the queue head (the "current" descriptor object). -/
def updHead (f : MediaD → MediaD) : List MediaD → List MediaD
  | [] => []
  | m :: rest => f m :: rest

def addEff (s : CallSt) (e : Eff) : CallSt := { s with effects := s.effects ++ [e] }

/-- Effect of one atomic action on (lock-registry entry, chat state). -/
def applyAct (a : Act) (p : Option Nat × CallSt) : Option Nat × CallSt :=
  match a with
  | .logGetAssistant => (p.1, addEff p.2 .getAssistant)
  | .logGetLang => (p.1, addEff p.2 .getLang)
  | .logGenThumb => (p.1, addEff p.2 .genThumb)
  | .clearQueue => (p.1, { addEff p.2 .queueCleared with queue := [] })
  | .removeCall => (p.1, { addEff p.2 .removeCallE with dbCall := false })
  | .popEntry => (none, p.2)
  | .logLeaveCall => (p.1, addEff p.2 .leaveCall)
  | .playAttempt pth ff => (p.1, addEff p.2 (.playAttempt pth ff))
  | .logEdit tag => (p.1, addEff p.2 (.editMsg tag))
  | .markStarted => (p.1, { p.2 with media := { p.2.media with time := 1 } })
  | .addCall => (p.1, { addEff p.2 .addCallE with dbCall := true })
  | .nowPlaying => (p.1, addEff p.2 .nowPlayingMsg)
  | .setMediaMsgId k => (p.1, { p.2 with media := { p.2.media with message_id := k } })
  | .safeDelete k => (p.1, addEff p.2 (.deleteMsg k))
  | .clearHeadMsgId => (p.1, { p.2 with queue := updHead (fun m => { m with message_id := 0 }) p.2.queue })
  | .queuePop => (p.1, { p.2 with queue := p.2.queue.tail })
  | .sendMsg tag => (p.1, addEff p.2 (.sendMsgE tag))
  | .setHeadMsgId k => (p.1, { p.2 with queue := updHead (fun m => { m with message_id := k }) p.2.queue })
  | .download vid => (p.1, addEff p.2 (.downloadE vid))
  | .setHeadPath pth => (p.1, { p.2 with queue := updHead (fun m => { m with file_path := pth }) p.2.queue })

def applyActs : List Act → Option Nat → CallSt → Option Nat × CallSt
  | [], e, s => (e, s)
  | a :: rest, e, s => applyActs rest (applyAct a (e, s)).1 (applyAct a (e, s)).2

/-- One scheduler-visible step of a coroutine. -/
inductive Step where
  | acquire
  | releaseL
  | act (acts : List Act)
  deriving DecidableEq, Repr

/-- A task: remaining program, stack of lock objects it holds, and the lock
object it is suspended on (resolved from the entry when it first reached
the `acquire`), if any. -/
structure TaskSt where
  prog : List Step
  held : List Nat
  waiting : Option Nat
  deriving DecidableEq, Repr

/-- A configuration: the tasks, the chat's `self._locks` entry (the lock
object number, if an entry exists), a fresh-lock counter, and the chat
state. -/
structure MConfig where
  tasks : List TaskSt
  entry : Option Nat
  nextId : Nat
  st : CallSt
  deriving DecidableEq, Repr

/-- A lock object is free iff no task holds it (asyncio locks are not
reentrant: the owner itself also blocks on a second acquire). -/
def lockFree (ts : List TaskSt) (l : Nat) : Bool :=
  ts.all (fun t => !(t.held.contains l))

/-- Run task `i` for one step (no-op when the index is out of range, the
task has finished, or it stays blocked on a held lock).  Cooperative
scheduling: tasks are interrupted only at these step boundaries. -/
def stepTask (i : Nat) (m : MConfig) : MConfig :=
  match m.tasks.get? i with
  | none => m
  | some t =>
    match t.prog with
    | [] => m
    | Step.acquire :: rest =>
      match t.waiting with
      | some l =>
          if lockFree m.tasks l then
            { m with tasks := m.tasks.set i { t with prog := rest, held := l :: t.held, waiting := none } }
          else m
      | none =>
        match m.entry with
        | some l =>
            if lockFree m.tasks l then
              { m with tasks := m.tasks.set i { t with prog := rest, held := l :: t.held } }
            else
              { m with tasks := m.tasks.set i { t with waiting := some l } }
        | none =>
            { m with entry := some m.nextId, nextId := m.nextId + 1,
                     tasks := m.tasks.set i { t with prog := rest, held := m.nextId :: t.held } }
    | Step.releaseL :: rest =>
        { m with tasks := m.tasks.set i { t with prog := rest, held := t.held.tail } }
    | Step.act acts :: rest =>
        let p := applyActs acts m.entry m.st
        { m with entry := p.1, st := p.2, tasks := m.tasks.set i { t with prog := rest } }

/-- Execute a schedule (a list of task indices). -/
def exec (sched : List Nat) (m : MConfig) : MConfig :=
  sched.foldl (fun m i => stepTask i m) m

/-- Iterate task 0 (used for single-task runs). -/
def run1 : Nat → MConfig → MConfig
  | 0, m => m
  | n + 1, m => run1 n (stepTask 0 m)

def initTask (prog : List Step) : TaskSt := { prog := prog, held := [], waiting := none }

/-! ## Compiled coroutine bodies

Each list mirrors the Python body statement by statement; comments give
the corresponding source lines of `anony/core/calls.py`. -/
/-- `TgCall.stop` (calls.py 135-151):
```
async with self._lock(chat_id):            -- acquire
    client = await db.get_assistant(...)   -- await; then sync queue.clear
    queue.clear(chat_id)
    await db.remove_call(chat_id)          -- await; then sync pop of the lock entry
    self._locks.pop(chat_id, None)
    try: await client.leave_call(chat_id, close=False)   -- await, errors swallowed
    except Exception: pass
```
-/
def stop_steps : List Step :=
  [Step.acquire,
   Step.act [Act.logGetAssistant, Act.clearQueue],
   Step.act [Act.removeCall, Act.popEntry],
   Step.act [Act.logLeaveCall],
   Step.releaseL]

/-- The `-ss` pre-input filter of `TgCall._build_stream`: applied only when
`seek_time > 1`. -/
def ffSeek (seek : Nat) : Option Nat := if seek > 1 then some seek else none

/-- `TgCall.play_next` (calls.py 251-284), compiled for a given scenario:
`cur` is `queue.get_current` at entry, `next` the descriptor
`queue.get_next` pops to, `dl` the result of `yt.download` when the next
descriptor lacks a file path, and `recPlay` the compiled body of the
recursive `play_media` call.
```
current = queue.get_current(chat_id)
if current and current.message_id:
    await self._safe_delete(...); current.message_id = 0
media = queue.get_next(chat_id)
if not media: return await self.stop(chat_id)
_lang = await lang.get_lang(chat_id)
msg = await app.send_message(..., text=_lang["play_next"])
if not media.file_path:
    media.file_path = await yt.download(media.id, video=media.video)
    if not media.file_path:
        await self.stop(chat_id)
        return await msg.edit_text(_lang["error_no_file"]...)
media.message_id = msg.id
await self.play_media(chat_id, msg, media)
```
(The model's message ids for freshly sent messages are the constant 1.) -/
def play_next_steps (cur next : Option MediaD) (dl : Option String)
    (recPlay : List Step) : List Step :=
  (match cur with
   | some c =>
       if c.message_id ≠ 0 then
         [Step.act [Act.safeDelete c.message_id, Act.clearHeadMsgId]]
       else []
   | none => []) ++
  [Step.act [Act.queuePop]] ++
  (match next with
   | none => stop_steps
   | some nm =>
     [Step.act [Act.logGetLang], Step.act [Act.sendMsg "play_next"]] ++
     (if nm.file_path = "" then
        [Step.act [Act.download nm.mid]] ++
        (match dl with
         | none => stop_steps ++ [Step.act [Act.logEdit "error_no_file"]]
         | some pth =>
             [Step.act [Act.setHeadPath pth], Step.act [Act.setHeadMsgId 1]] ++ recPlay)
      else
        [Step.act [Act.setHeadMsgId 1]] ++ recPlay))

/-- The outcome of the `client.play` transport call inside `play_media`. -/
inductive PlayOutcome where
  | ok
  | noActiveGroupCall
  | connOrServer
  | rtmpUnsupported
  | fileNotFound
  | noAudioSource
  deriving DecidableEq, Repr

/-- `TgCall.play_media` (calls.py 157-236), compiled for a given scenario:
`m` the descriptor, `seek` the seek offset, `outcome` what `client.play`
does, `thumbTrack` whether `config.THUMB_GEN` and `isinstance(media,
Track)` make the thumbnail generation an extra await, and
`pnCur`/`pnNext`/`pnDl`/`recPlay` the scenario of a `play_next` the body
may delegate to.
```
async with self._lock(chat_id):                    -- acquire
    client = await db.get_assistant(chat_id)       -- await
    _lang = await lang.get_lang(chat_id)           -- await
    [if config.THUMB_GEN and isinstance(media, Track): await thumb.generate]
    if not media.file_path:
        await _safe_edit(message, _lang["error_no_file"]...)
        return await self.play_next(chat_id)
    stream = self._build_stream(media, seek_time)
    try: await client.play(...)                    -- await
    except NoActiveGroupCall:
        await self.stop(chat_id)                   -- re-enters the chat lock
        return await _safe_edit(message, _lang["error_no_call"])
    except (ConnectionNotFound, TelegramServerError):
        await self.stop(chat_id); return await _safe_edit(..., "error_tg_server")
    except RTMPStreamingUnsupported:
        await self.stop(chat_id); return await _safe_edit(..., "error_rtmp")
    except FileNotFoundError:
        await _safe_edit(..., "error_no_file"); return await self.play_next(chat_id)
    except NoAudioSourceFound:
        await _safe_edit(..., "error_no_audio"); return await self.play_next(chat_id)
    if seek_time: return
    media.time = 1
    await db.add_call(chat_id)                     -- await
    sent = await _send_now_playing(...)            -- await; then sync media.message_id = sent.id
    if sent: media.message_id = sent.id
```
-/
def play_media_steps (m : MediaD) (seek : Nat) (outcome : PlayOutcome)
    (thumbTrack : Bool) (pnCur pnNext : Option MediaD) (pnDl : Option String)
    (recPlay : List Step) : List Step :=
  [Step.acquire, Step.act [Act.logGetAssistant], Step.act [Act.logGetLang]] ++
  (if thumbTrack then [Step.act [Act.logGenThumb]] else []) ++
  (if m.file_path = "" then
     [Step.act [Act.logEdit "error_no_file"]] ++
     play_next_steps pnCur pnNext pnDl recPlay ++ [Step.releaseL]
   else
     [Step.act [Act.playAttempt m.file_path (ffSeek seek)]] ++
     (match outcome with
      | .ok =>
          if seek ≠ 0 then [Step.releaseL]
          else [Step.act [Act.markStarted], Step.act [Act.addCall],
                Step.act [Act.nowPlaying, Act.setMediaMsgId 1], Step.releaseL]
      | .noActiveGroupCall =>
          stop_steps ++ [Step.act [Act.logEdit "error_no_call"], Step.releaseL]
      | .connOrServer =>
          stop_steps ++ [Step.act [Act.logEdit "error_tg_server"], Step.releaseL]
      | .rtmpUnsupported =>
          stop_steps ++ [Step.act [Act.logEdit "error_rtmp"], Step.releaseL]
      | .fileNotFound =>
          [Step.act [Act.logEdit "error_no_file"]] ++
          play_next_steps pnCur pnNext pnDl recPlay ++ [Step.releaseL]
      | .noAudioSource =>
          [Step.act [Act.logEdit "error_no_audio"]] ++
          play_next_steps pnCur pnNext pnDl recPlay ++ [Step.releaseL]))

/-! ## Claim C6 -/
/-- A single `stop` invocation run to completion from an arbitrary state
(lock entry `e`, fresh-lock counter `nid`, chat state `s`), with no other
task running. -/
def stopRun (e : Option Nat) (nid : Nat) (s : CallSt) : MConfig :=
  run1 5 { tasks := [initTask stop_steps], entry := e, nextId := nid, st := s }

/-! ## Claim C7 -/
/-- A single `play_media` invocation (raw `Media` descriptor `m`, seek
offset `seek`, transport outcome `outcome`) run alone from lock entry `e`,
counter `nid` and chat state `s`.  The `play_next` scenario parameters are
irrelevant on this path and left empty. -/
def playRun (m : MediaD) (seek : Nat) (outcome : PlayOutcome)
    (e : Option Nat) (nid : Nat) (s : CallSt) : MConfig :=
  run1 5 { tasks := [initTask (play_media_steps m seek outcome false none none none [])],
           entry := e, nextId := nid, st := s }

/-- The descriptor being streamed in the C2 scenario. -/
def mediaC2 : MediaD :=
  { mid := "x", title := "t", duration := "1:00", url := "u", user := "usr",
    file_path := "song.webm", video := false, time := 0, message_id := 0 }

/-- C2 failing input: `play_media(chat, msg, mediaC2)` on an active call
(queue `[mediaC2]`, persisted call state present, no lock held) where the
transport `client.play` raises `NoActiveGroupCall`. -/
def C2init : MConfig :=
  { tasks := [initTask
      (play_media_steps mediaC2 0 PlayOutcome.noActiveGroupCall false none none none [])],
    entry := none, nextId := 0,
    st := { queue := [mediaC2], dbCall := true, media := mediaC2, effects := [] } }

/-- The six configurations the C2 run can ever reach (the sixth is the
deadlocked fixpoint: the task waits on lock 0, which it itself holds). -/
def C2chain : List MConfig := (List.range 6).map (fun n => run1 n C2init)

/-- What the claim promises and the code never delivers in the C2 run: the
invocation has not terminated, the queue still holds its entry (never
cleared), the persisted call state was never removed, and the terminal
message was never reported. -/
def C2stuck (m : MConfig) : Bool :=
  m.tasks.all (fun t => !t.prog.isEmpty) &&
  m.st.queue == [mediaC2] &&
  m.st.dbCall &&
  !(m.st.effects.contains (Eff.editMsg "error_no_call")) &&
  !(m.st.effects.contains Eff.queueCleared)

/-- The currently playing descriptor in the C3 scenario. -/
def mediaC3 : MediaD :=
  { mid := "a", title := "t", duration := "1:00", url := "u", user := "usr",
    file_path := "a.webm", video := false, time := 0, message_id := 0 }

/-- The queued next track in the C3 scenario (local file present). -/
def mediaN3 : MediaD :=
  { mid := "b", title := "t2", duration := "2:00", url := "u2", user := "usr",
    file_path := "b.webm", video := false, time := 0, message_id := 0 }

/-- C3 failing input: `play_media(chat, msg, mediaC3)` on a queue
`[mediaC3, mediaN3]` where the transport `client.play` raises
`FileNotFoundError` (the local file vanished); `play_next` pops to
`mediaN3`, whose file is present, and re-enters `play_media`. -/
def C3init : MConfig :=
  { tasks := [initTask
      (play_media_steps mediaC3 0 PlayOutcome.fileNotFound false
        (some mediaC3) (some mediaN3) none
        (play_media_steps mediaN3 0 PlayOutcome.ok false none none none []))],
    entry := none, nextId := 0,
    st := { queue := [mediaC3, mediaN3], dbCall := true, media := mediaC3,
            effects := [] } }

/-- The eleven configurations the C3 run can ever reach (the last is the
deadlocked fixpoint: the re-entered `play_media` waits on lock 0, which the
outer `play_media` still holds). -/
def C3chain : List MConfig := (List.range 11).map (fun n => run1 n C3init)

/-- In the C3 run, under every schedule: the invocation never terminates
and the next track's transport play is never issued. -/
def C3stuck (m : MConfig) : Bool :=
  m.tasks.all (fun t => !t.prog.isEmpty) &&
  !(m.st.effects.contains (Eff.playAttempt "b.webm" none)) &&
  !(m.st.effects.contains (Eff.playAttempt "b.webm" (some 0)))

/-! ## Claim C1: mutual exclusion of `play_media` and `stop`

`TgCall.stop` pops the chat's lock entry from `self._locks` *before* its
final `await client.leave_call(...)` and before releasing the lock.  An
invocation that reaches `self._lock(chat_id)` in that window finds no
entry, creates a *fresh* lock, acquires it immediately and runs its whole
body concurrently with the tail of `stop`. -/
/-- The descriptor being streamed in the C1 scenario. -/
def mediaC1 : MediaD :=
  { mid := "p", title := "t", duration := "1:00", url := "u", user := "usr",
    file_path := "p.webm", video := false, time := 0, message_id := 0 }

/-- C1 scenario: task 0 is a `stop` invocation, task 1 a `play_media`
invocation (fresh play, transport succeeds) for the same chat, started on
an active call with no lock entry yet. -/
def C1init : MConfig :=
  { tasks := [initTask stop_steps,
              initTask (play_media_steps mediaC1 0 PlayOutcome.ok false none none none [])],
    entry := none, nextId := 0,
    st := { queue := [mediaC1], dbCall := true, media := mediaC1, effects := [] } }

/-! ### The residual guarantee: per-lock-object mutual exclusion -/
/-- No lock object is ever held by two distinct tasks. -/
def HeldDisjoint (m : MConfig) : Prop :=
  ∀ i j ti tj l, m.tasks.get? i = some ti → m.tasks.get? j = some tj →
    l ∈ ti.held → l ∈ tj.held → i = j

/-- Every held lock object was allocated (is below the fresh counter). -/
def HeldBound (m : MConfig) : Prop :=
  ∀ i ti l, m.tasks.get? i = some ti → l ∈ ti.held → l < m.nextId

/-- The registry entry, if any, was allocated. -/
def EntryBound (m : MConfig) : Prop :=
  ∀ l, m.entry = some l → l < m.nextId

/-- Every lock object a task waits on was allocated. -/
def WaitBound (m : MConfig) : Prop :=
  ∀ i ti l, m.tasks.get? i = some ti → ti.waiting = some l → l < m.nextId

def LockInv (m : MConfig) : Prop :=
  HeldDisjoint m ∧ HeldBound m ∧ EntryBound m ∧ WaitBound m

/-! ## Lemmas about `detect_platform` -/
/-- The scan returns `"unknown"` or one of the table's tags. -/
theorem detectAux_unknown_or_mem (u : List Char) :
    ∀ tbl : List (String × List RE),
      detectAux u tbl = "unknown" ∨ detectAux u tbl ∈ tbl.map Prod.fst := by
  intro tbl
  induction tbl with
  | nil => exact Or.inl rfl
  | cons hd rest ih =>
    obtain ⟨tag, pats⟩ := hd
    by_cases h : pats.any (fun r => r.searchList u) = true
    · right
      simp [detectAux, h]
    · have : detectAux u ((tag, pats) :: rest) = detectAux u rest := by
        simp [detectAux, h]
      rw [this]
      rcases ih with h1 | h1
      · exact Or.inl h1
      · exact Or.inr (by simp [h1])

/-! ## Claim C8 -/
/-- C8: for every integer `v`, `set_volume` delegates to the transport with
the value clamped to `[0, 200]`; `v = -10` yields a transport call with `0`,
`v = 250` yields `200`, `v = 100` yields `100`, and `set_volume` returns the
transport's boolean result. -/
theorem C8_set_volume_clamp :
    (∀ (t : Int → Bool) (v : Int),
        set_volume t v = t (clampVolume v) ∧
        0 ≤ clampVolume v ∧ clampVolume v ≤ 200) ∧
    clampVolume (-10) = 0 ∧ clampVolume 250 = 200 ∧ clampVolume 100 = 100 := by
  refine ⟨fun t v => ⟨rfl, le_max_left 0 _, ?_⟩, by decide, by decide, by decide⟩
  simp only [clampVolume, max_le_iff]
  exact ⟨by norm_num, min_le_left 200 v⟩

/-! ## Claim C9 -/
/-- C9: `detect_platform` is a total function over the ordered pattern
table, returning the tag of the first matching platform and `"unknown"`
when no pattern matches; in particular the four example URLs map to
`"youtube"`, `"spotify"`, `"m3u8"` and `"unknown"` respectively. -/
theorem C9_detect_platform :
    detect_platform "https://youtu.be/dQw4w9WgXcQ" = "youtube" ∧
    detect_platform "https://open.spotify.com/track/abc123" = "spotify" ∧
    detect_platform "https://example.com/file.m3u8" = "m3u8" ∧
    detect_platform "https://notaplatform.test/x" = "unknown" ∧
    ∀ url : String,
      detect_platform url = "unknown" ∨
      detect_platform url ∈ PLATFORM_PATTERNS.map Prod.fst :=
  ⟨by decide, by decide, by decide, by decide,
   fun url => detectAux_unknown_or_mem (url.data.map Char.toLower) PLATFORM_PATTERNS⟩

/-! ## Claim C10 -/
/-- C10: after `purge_cache video_id` completes, both cache probes report
absence for both media kinds: `is_cached` is `false` and `cached_path` is
`none`, for `video = true` (mp4) and `video = false` (webm). -/
theorem C10_purge_cache_clears (fs : List String) (video_id : String) :
    ∀ video : Bool,
      is_cached (purge_cache fs video_id) video_id video = false ∧
      cached_path (purge_cache fs video_id) video_id video = none := by
  intro video
  have hmem : ¬ (cacheFile video_id video ∈ purge_cache fs video_id) := by
    intro h
    rw [purge_cache, List.mem_filter] at h
    rcases h with ⟨-, hpred⟩
    cases video <;> simp at hpred
  have hcont : (purge_cache fs video_id).contains (cacheFile video_id video) = false := by
    simpa using hmem
  constructor
  · exact hcont
  · rw [cached_path, hcont]
    simp

/-! ## Lemmas about the cookie pool and the download loop -/
/-- A successful draw came from the (loaded) pool. -/
theorem get_cookies_mem (r : Nat) (s : YtSt) (p : String)
    (h : (get_cookies r s).1 = some p) : p ∈ (get_cookies r s).2.cookies := by
  unfold get_cookies at h ⊢
  by_cases he : (load_cookies s).cookies.isEmpty
  · simp [he] at h
  · simp only [he, if_false] at h ⊢
    exact List.get?_mem h

/-- A draw leaves `checked` and `cookies` as loaded (only `warned` may change). -/
theorem get_cookies_cookies (r : Nat) (s : YtSt) :
    (get_cookies r s).2.cookies = (load_cookies s).cookies ∧
    (get_cookies r s).2.checked = (load_cookies s).checked := by
  unfold get_cookies
  by_cases he : (load_cookies s).cookies.isEmpty
  · by_cases hw : (load_cookies s).warned <;> simp [he, hw]
  · simp [he]

/-- Behaviour of the retry loop, for any oracle: it performs at most `fuel`
attempts; when no attempt succeeds it returns `none` after exactly `fuel`
attempts; and the invalidated cookies are exactly the drawn cookies of the
attempts that failed with a `DownloadError`/`ExtractorError` (in particular
nothing is removed on an empty pool, where the draw is `none`, nor on other
exceptions). -/
theorem download_loop_spec (fetch : Nat → FetchOutcome) (rand : Nat → Nat)
    (video_id : String) (video : Bool) :
    ∀ (fuel k : Nat) (s : YtSt),
      (download_loop fetch rand video_id video fuel k s).attempts ≤ fuel ∧
      ((∀ j, fetch j ≠ FetchOutcome.ok) →
        (download_loop fetch rand video_id video fuel k s).result = none ∧
        (download_loop fetch rand video_id video fuel k s).attempts = fuel) ∧
      (download_loop fetch rand video_id video fuel k s).removed =
        (download_loop fetch rand video_id video fuel k s).log.filterMap dlErrCookie := by
  intro fuel
  induction fuel with
  | zero => intro k s; simp [download_loop]
  | succ n ih =>
    intro k s
    cases hfk : fetch k with
    | ok =>
      refine ⟨?_, ?_, ?_⟩
      · simp [download_loop, hfk]
      · intro hall
        exact absurd hfk (hall k)
      · simp [download_loop, hfk, dlErrCookie]
    | okMissing =>
      obtain ⟨ih1, ih2, ih3⟩ := ih (k + 1) (get_cookies (rand k) s).2
      refine ⟨?_, ?_, ?_⟩
      · simp only [download_loop, hfk]
        omega
      · intro hall
        simp only [download_loop, hfk]
        exact ⟨(ih2 hall).1, by rw [(ih2 hall).2]⟩
      · simp only [download_loop, hfk, List.filterMap_cons]
        simpa [dlErrCookie] using ih3
    | dlError =>
      cases hc : (get_cookies (rand k) s).1 with
      | none =>
        obtain ⟨ih1, ih2, ih3⟩ :=
          ih (k + 1) (invalidate_cookie none (get_cookies (rand k) s).2)
        refine ⟨?_, ?_, ?_⟩
        · simp only [download_loop, hfk, hc]
          omega
        · intro hall
          simp only [download_loop, hfk, hc]
          exact ⟨(ih2 hall).1, by rw [(ih2 hall).2]⟩
        · simp only [download_loop, hfk, hc, List.filterMap_cons]
          simpa [dlErrCookie] using ih3
      | some p =>
        have hmem : p ∈ (get_cookies (rand k) s).2.cookies := get_cookies_mem _ _ _ hc
        obtain ⟨ih1, ih2, ih3⟩ :=
          ih (k + 1) (invalidate_cookie (some p) (get_cookies (rand k) s).2)
        refine ⟨?_, ?_, ?_⟩
        · simp only [download_loop, hfk, hc]
          omega
        · intro hall
          simp only [download_loop, hfk, hc]
          exact ⟨(ih2 hall).1, by rw [(ih2 hall).2]⟩
        · simp only [download_loop, hfk, hc, List.filterMap_cons]
          simpa [dlErrCookie, hmem] using ih3
    | otherError =>
      obtain ⟨ih1, ih2, ih3⟩ := ih (k + 1) (get_cookies (rand k) s).2
      refine ⟨?_, ?_, ?_⟩
      · simp only [download_loop, hfk]
        omega
      · intro hall
        simp only [download_loop, hfk]
        exact ⟨(ih2 hall).1, by rw [(ih2 hall).2]⟩
      · simp only [download_loop, hfk, List.filterMap_cons]
        simpa [dlErrCookie] using ih3

/-! ## Claim C4 -/
/-- C4 (counterexample to the claim as stated): with a pool of one cookie
and every fetch attempt failing with a generic (non-`DownloadError`)
exception, `download` performs 3 failed attempts yet removes no credential
at all — refuting that every failed attempt removes exactly one credential
from the pool. -/
theorem C4_counterexample :
    (download (fun _ => FetchOutcome.otherError) (fun _ => 0) [] none 0 "v" false
        { cookies := [], checked := false, warned := false, dir := ["a.txt"] }).result
        = none ∧
    (download (fun _ => FetchOutcome.otherError) (fun _ => 0) [] none 0 "v" false
        { cookies := [], checked := false, warned := false, dir := ["a.txt"] }).attempts
        = 3 ∧
    (download (fun _ => FetchOutcome.otherError) (fun _ => 0) [] none 0 "v" false
        { cookies := [], checked := false, warned := false, dir := ["a.txt"] }).removed
        = [] ∧
    (download (fun _ => FetchOutcome.otherError) (fun _ => 0) [] none 0 "v" false
        { cookies := [], checked := false, warned := false, dir := ["a.txt"] }).st.cookies
        = ["anony/cookies/a.txt"] := by
  refine ⟨rfl, rfl, rfl, by decide⟩

/-- C4 (amended): for a video id that is not cached and passes the duration
guard, `download` performs at most `MAX_RETRIES = 3` fetch attempts; when no
attempt succeeds it returns `none` after exactly 3 attempts; and the
credentials removed from the pool are exactly the cookies drawn by the
attempts that failed with a `DownloadError`/`ExtractorError` — one removal
per such attempt, none when the pool was empty at the draw (`none` drawn)
and none for attempts failing with any other exception. -/
theorem C4_download_retries (fetch : Nat → FetchOutcome) (rand : Nat → Nat)
    (fs : List String) (info : Option Nat) (durationLimit : Nat)
    (video_id : String) (video : Bool) (s : YtSt)
    (hnc : fs.contains (cacheFile video_id video) = false)
    (hguard : duration_guard_fails info durationLimit = false) :
    (download fetch rand fs info durationLimit video_id video s).attempts ≤ MAX_RETRIES ∧
    ((∀ j, fetch j ≠ FetchOutcome.ok) →
      (download fetch rand fs info durationLimit video_id video s).result = none ∧
      (download fetch rand fs info durationLimit video_id video s).attempts = MAX_RETRIES) ∧
    (download fetch rand fs info durationLimit video_id video s).removed =
      (download fetch rand fs info durationLimit video_id video s).log.filterMap
        dlErrCookie := by
  have h := download_loop_spec fetch rand video_id video MAX_RETRIES 1 (get_cookies (rand 0) s).2
  simpa only [download, hnc, hguard, Bool.false_eq_true, if_false] using h

/-- C4 witness: the amended theorem applied at a concrete input (one pooled
cookie, every attempt a `DownloadError`): exactly one credential is removed
per failed attempt until the pool is empty, and `download` returns `none`
after 3 attempts. -/
theorem C4_download_retries_witness :
    ([] : List String).contains (cacheFile "v" false) = false ∧
    duration_guard_fails none 0 = false ∧
    ((download (fun _ : Nat => FetchOutcome.dlError) (fun _ => 0) [] none 0 "v" false
        { cookies := [], checked := false, warned := false, dir := ["a.txt"] }).attempts
        ≤ MAX_RETRIES ∧
     ((∀ j, (fun _ : Nat => FetchOutcome.dlError) j ≠ FetchOutcome.ok) →
       (download (fun _ : Nat => FetchOutcome.dlError) (fun _ => 0) [] none 0 "v" false
          { cookies := [], checked := false, warned := false, dir := ["a.txt"] }).result
          = none ∧
       (download (fun _ : Nat => FetchOutcome.dlError) (fun _ => 0) [] none 0 "v" false
          { cookies := [], checked := false, warned := false, dir := ["a.txt"] }).attempts
          = MAX_RETRIES) ∧
     (download (fun _ : Nat => FetchOutcome.dlError) (fun _ => 0) [] none 0 "v" false
        { cookies := [], checked := false, warned := false, dir := ["a.txt"] }).removed =
       (download (fun _ : Nat => FetchOutcome.dlError) (fun _ => 0) [] none 0 "v" false
          { cookies := [], checked := false, warned := false, dir := ["a.txt"] }).log.filterMap
         dlErrCookie) :=
  ⟨by decide, by decide,
   C4_download_retries (fun _ : Nat => FetchOutcome.dlError) (fun _ => 0) [] none 0 "v" false
     { cookies := [], checked := false, warned := false, dir := ["a.txt"] }
     (by decide) (by decide)⟩

/-! ## Claim C5 -/
theorem load_cookies_of_checked (s : YtSt) (h : s.checked = true) :
    load_cookies s = s := by
  simp [load_cookies, h]

theorem invalidate_cookie_checked (c : Option String) (s : YtSt) :
    (invalidate_cookie c s).checked = s.checked := by
  cases c with
  | none => rfl
  | some p =>
    by_cases hp : p ∈ s.cookies <;> simp [invalidate_cookie, hp]

theorem invalidate_cookie_not_mem (c : Option String) (s : YtSt) (p : String)
    (hp : p ∉ s.cookies) : p ∉ (invalidate_cookie c s).cookies := by
  cases c with
  | none => exact hp
  | some q =>
    by_cases hq : q ∈ s.cookies <;> simp [invalidate_cookie, hq]
    · intro hmem
      exact hp (List.mem_of_mem_erase hmem)
    · exact hp

/-- C5 (counterexample to the claim as stated): starting from an unloaded
pool whose directory holds `a.txt`, the path `anony/cookies/a.txt` is
drawn, invalidated (pool becomes empty), and then — after a
`save_cookies` refresh, which only rewrites the directory and reloads the
pool from it while the invalidated file is still on disk — the very same
path is drawn again. -/
theorem C5_counterexample :
    (runCkOps
        [CkOp.draw 0, CkOp.invalid "anony/cookies/a.txt", CkOp.refresh [], CkOp.draw 0]
        { cookies := [], checked := false, warned := false, dir := ["a.txt"] }).2 =
      [some "anony/cookies/a.txt", some "anony/cookies/a.txt"] ∧
    (runCkOps
        [CkOp.draw 0, CkOp.invalid "anony/cookies/a.txt"]
        { cookies := [], checked := false, warned := false, dir := ["a.txt"] }).1.cookies =
      [] := by
  exact ⟨by decide, by decide⟩

/-- C5 (amended): once a credential path has been removed from the loaded
pool, no later draw returns it again under any sequence of draw and
invalidate operations — the invariant holds as long as no `save_cookies`
refresh intervenes (a refresh reloads the pool from the cookie directory,
re-admitting any invalidated path whose file is still on disk). -/
theorem C5_no_redraw (ops : List PoolOp) (p : String) :
    ∀ s : YtSt, s.checked = true → p ∉ s.cookies →
      some p ∉ (runPoolOps ops s).2 ∧
      (runPoolOps ops s).1.checked = true ∧
      p ∉ (runPoolOps ops s).1.cookies := by
  induction ops with
  | nil =>
    intro s hc hp
    exact ⟨by simp [runPoolOps], hc, hp⟩
  | cons op rest ih =>
    intro s hc hp
    cases op with
    | draw r =>
      have hload : load_cookies s = s := load_cookies_of_checked s hc
      have hck : (get_cookies r s).2.cookies = s.cookies ∧
          (get_cookies r s).2.checked = s.checked := by
        have h := get_cookies_cookies r s
        rwa [hload] at h
      have hdrawn : (get_cookies r s).1 ≠ some p := by
        intro heq
        have := get_cookies_mem r s p heq
        rw [hck.1] at this
        exact hp this
      obtain ⟨ih1, ih2, ih3⟩ :=
        ih (get_cookies r s).2 (by rw [hck.2, hc]) (by rw [hck.1]; exact hp)
      refine ⟨?_, ih2, ih3⟩
      simp only [runPoolOps, List.mem_cons]
      rintro (h | h)
      · exact hdrawn h.symm
      · exact ih1 h
    | invalid q =>
      obtain ⟨ih1, ih2, ih3⟩ :=
        ih (invalidate_cookie (some q) s)
          (by rw [invalidate_cookie_checked, hc])
          (invalidate_cookie_not_mem (some q) s p hp)
      exact ⟨ih1, ih2, ih3⟩

/-- C5 witness: the amended theorem at a concrete input — a loaded pool
`["anony/cookies/b.txt"]` from which `"anony/cookies/gone.txt"` is absent
(it was removed earlier): a draw followed by an unrelated invalidation
never returns the removed path. -/
theorem C5_no_redraw_witness :
    ({ cookies := ["anony/cookies/b.txt"], checked := true, warned := false,
       dir := ["b.txt"] } : YtSt).checked = true ∧
    "anony/cookies/gone.txt" ∉
      ({ cookies := ["anony/cookies/b.txt"], checked := true, warned := false,
         dir := ["b.txt"] } : YtSt).cookies ∧
    some "anony/cookies/gone.txt" ∉
      (runPoolOps [PoolOp.draw 0, PoolOp.invalid "anony/cookies/b.txt", PoolOp.draw 1]
        { cookies := ["anony/cookies/b.txt"], checked := true, warned := false,
          dir := ["b.txt"] }).2 :=
  ⟨by decide, by decide,
   (C5_no_redraw [PoolOp.draw 0, PoolOp.invalid "anony/cookies/b.txt", PoolOp.draw 1]
      "anony/cookies/gone.txt"
      { cookies := ["anony/cookies/b.txt"], checked := true, warned := false,
        dir := ["b.txt"] }
      (by decide) (by decide)).1⟩

/-- C6: `stop` is idempotent.  From any state a `stop` terminates without
error (the transport `leave_call` failure being swallowed), leaving: no
lock entry, empty queue, no persisted call state, the descriptor untouched,
and exactly the four best-effort teardown calls logged.  Hence a second
`stop` in succession reproduces the very same state (no duplicate teardown
side effects beyond a repetition of the swallowed best-effort calls), and a
`stop` on a chat with no active call (empty queue, no persisted call
state) is a no-op up to the effect log. -/
theorem C6_stop_idempotent (e : Option Nat) (nid : Nat) (s : CallSt) :
    (stopRun e nid s).tasks = [{ prog := [], held := [], waiting := none }] ∧
    (stopRun e nid s).entry = none ∧
    (stopRun e nid s).st =
      { queue := [], dbCall := false, media := s.media,
        effects := s.effects ++
          [Eff.getAssistant, Eff.queueCleared, Eff.removeCallE, Eff.leaveCall] } ∧
    ((s.queue = [] ∧ s.dbCall = false) →
      (stopRun e nid s).st =
        { s with effects := s.effects ++
            [Eff.getAssistant, Eff.queueCleared, Eff.removeCallE, Eff.leaveCall] }) := by
  obtain ⟨q, db, med, eff⟩ := s
  have h3 : (stopRun e nid ⟨q, db, med, eff⟩).st =
      { queue := [], dbCall := false, media := med,
        effects := eff ++
          [Eff.getAssistant, Eff.queueCleared, Eff.removeCallE, Eff.leaveCall] } := by
    cases e <;>
      simp [stopRun, run1, stepTask, stop_steps, applyActs, applyAct, addEff,
        initTask, lockFree]
  refine ⟨?_, ?_, h3, ?_⟩
  · cases e <;> rfl
  · cases e <;> rfl
  · rintro ⟨hq, hd⟩
    have hq2 : q = [] := hq
    have hd2 : db = false := hd
    subst hq2
    subst hd2
    exact h3

/-- C6 witness: `stop` on a concrete chat with no active call (empty queue,
no persisted call state) leaves the state unchanged apart from the logged
best-effort teardown calls — so a second `stop` in succession is a no-op. -/
theorem C6_stop_idempotent_witness :
    (stopRun none 0
        { queue := [], dbCall := false,
          media := { mid := "x", title := "t", duration := "1:00", url := "u",
                     user := "usr", file_path := "f.webm", video := false,
                     time := 0, message_id := 0 },
          effects := [] }).st =
      { queue := [], dbCall := false,
        media := { mid := "x", title := "t", duration := "1:00", url := "u",
                   user := "usr", file_path := "f.webm", video := false,
                   time := 0, message_id := 0 },
        effects := [Eff.getAssistant, Eff.queueCleared, Eff.removeCallE, Eff.leaveCall] } :=
  (C6_stop_idempotent none 0
      { queue := [], dbCall := false,
        media := { mid := "x", title := "t", duration := "1:00", url := "u",
                   user := "usr", file_path := "f.webm", video := false,
                   time := 0, message_id := 0 },
        effects := [] }).2.2.2 ⟨rfl, rfl⟩

/-- C7: for every nonzero `seekOffset`, when the transport play call inside
`play_media` succeeds, the invocation returns with no state or UI update:
the run terminates right after the transport call, the descriptor is not
marked as started (the chat state, including the descriptor object and the
queue, is untouched), the call is not registered with the call-state store
(no `addCall`), and no now-playing message is produced — the only logged
external calls are the assistant lookup, the language lookup and the
transport `play` itself. -/
theorem C7_seek_no_update (m : MediaD) (seek : Nat) (e : Option Nat) (nid : Nat)
    (s : CallSt) (hpath : m.file_path ≠ "") (hseek : seek ≠ 0) :
    (playRun m seek PlayOutcome.ok e nid s).tasks =
      [{ prog := [], held := [], waiting := none }] ∧
    (playRun m seek PlayOutcome.ok e nid s).st.media = s.media ∧
    (playRun m seek PlayOutcome.ok e nid s).st.queue = s.queue ∧
    (playRun m seek PlayOutcome.ok e nid s).st.dbCall = s.dbCall ∧
    (playRun m seek PlayOutcome.ok e nid s).st.effects =
      s.effects ++ [Eff.getAssistant, Eff.getLang,
        Eff.playAttempt m.file_path (ffSeek seek)] := by
  cases e <;>
    simp [playRun, play_media_steps, hpath, hseek, run1, stepTask, applyActs,
      applyAct, addEff, initTask, lockFree]

/-- C7 witness: `play_media` with `seekOffset = 5` on an already-playing
chat — the transport is called with an `-ss 5` filter, the persisted call
flag stays as it was, no `addCall` and no now-playing message appear in the
effect log, and the descriptor keeps `time = 0`. -/
theorem C7_seek_no_update_witness :
    ({ mid := "x", title := "t", duration := "1:00", url := "u", user := "usr",
       file_path := "f.webm", video := false, time := 0,
       message_id := 3 } : MediaD).file_path ≠ "" ∧
    (5 : Nat) ≠ 0 ∧
    (playRun
        { mid := "x", title := "t", duration := "1:00", url := "u", user := "usr",
          file_path := "f.webm", video := false, time := 0, message_id := 3 }
        5 PlayOutcome.ok none 0
        { queue := [{ mid := "x", title := "t", duration := "1:00", url := "u",
                      user := "usr", file_path := "f.webm", video := false,
                      time := 0, message_id := 3 }],
          dbCall := true,
          media := { mid := "x", title := "t", duration := "1:00", url := "u",
                     user := "usr", file_path := "f.webm", video := false,
                     time := 0, message_id := 3 },
          effects := [] }).st.effects =
      [] ++ [Eff.getAssistant, Eff.getLang, Eff.playAttempt "f.webm" (ffSeek 5)] :=
  ⟨by decide, by decide,
   (C7_seek_no_update
      { mid := "x", title := "t", duration := "1:00", url := "u", user := "usr",
        file_path := "f.webm", video := false, time := 0, message_id := 3 }
      5 none 0
      { queue := [{ mid := "x", title := "t", duration := "1:00", url := "u",
                    user := "usr", file_path := "f.webm", video := false,
                    time := 0, message_id := 3 }],
        dbCall := true,
        media := { mid := "x", title := "t", duration := "1:00", url := "u",
                   user := "usr", file_path := "f.webm", video := false,
                   time := 0, message_id := 3 },
        effects := [] }
      (by decide) (by decide)).2.2.2.2⟩

/-! ## Claims C2 and C3: the re-entrant lock deadlock

`play_media` executes its whole body, error handlers included, inside
`async with self._lock(chat_id)`.  The hard-failure handlers call
`await self.stop(chat_id)` and the soft-failure handlers call
`await self.play_next(chat_id)` (which itself ends in `self.stop` or
`self.play_media`) — all of which re-acquire the same, non-reentrant
per-chat lock, which the running `play_media` still holds. -/
theorem stepTask_oob (m : MConfig) (i : Nat) (h : m.tasks.get? i = none) :
    stepTask i m = m := by
  simp only [stepTask, h]

theorem exec_cons (i : Nat) (rest : List Nat) (m : MConfig) :
    exec (i :: rest) m = exec rest (stepTask i m) := rfl

/-- A closed list of configurations that contains the initial one and is
closed under every scheduler step forces every schedule to stay inside. -/
theorem exec_mem_of_closed (chain : List MConfig)
    (hclosed : ∀ m ∈ chain, ∀ i : Nat, stepTask i m ∈ chain) :
    ∀ (sched : List Nat) (m : MConfig), m ∈ chain → exec sched m ∈ chain := by
  intro sched
  induction sched with
  | nil => intro m hm; exact hm
  | cons i rest ih =>
    intro m hm
    rw [exec_cons]
    exact ih _ (hclosed m hm i)

/-- For a single-task configuration, every index other than 0 is a no-op. -/
theorem closed_of_one_task (chain : List MConfig)
    (hlen : ∀ m ∈ chain, m.tasks.length = 1)
    (h0 : ∀ m ∈ chain, stepTask 0 m ∈ chain) :
    ∀ m ∈ chain, ∀ i : Nat, stepTask i m ∈ chain := by
  intro m hm i
  cases i with
  | zero => exact h0 m hm
  | succ j =>
    rw [stepTask_oob m (j + 1) (List.get?_len_le (by rw [hlen m hm]; omega))]
    exact hm

/-- C2: on a hard transport failure (`NoActiveGroupCall` here),
`play_media` does invoke `stop` — but `stop` re-acquires the per-chat
`asyncio.Lock` that this very `play_media` still holds, and asyncio locks
are not reentrant: under every schedule the invocation never terminates,
the queue is never cleared, the persisted call state is never removed and
the terminal message is never reported.  The code deadlocks instead of
tearing the call down as both the spec and the code's own comments
(`Hard errors: stop the call`) intend. -/
theorem C2_hard_failure_deadlock :
    ∀ sched : List Nat, C2stuck (exec sched C2init) = true := by
  have h0 : ∀ m ∈ C2chain, stepTask 0 m ∈ C2chain := by decide
  have hlen : ∀ m ∈ C2chain, m.tasks.length = 1 := by decide
  have hQ : ∀ m ∈ C2chain, C2stuck m = true := by decide
  have hinit : C2init ∈ C2chain := by decide
  intro sched
  exact hQ _ (exec_mem_of_closed C2chain (closed_of_one_task C2chain hlen h0)
    sched C2init hinit)

/-- C3: on a soft failure (`FileNotFoundError` here) `play_media` does
report the failure and does advance to `play_next` without tearing the
call down (the effect log of the reachable configurations shows the
`error_no_file` report, the queue pop to the next track and the
`play_next` placeholder message) — but `play_next` ends by re-entering
`play_media`, which re-acquires the per-chat lock the outer `play_media`
still holds: under every schedule the invocation never terminates and the
next track is never streamed.  The skip deadlocks instead of completing. -/
theorem C3_soft_failure_deadlock :
    (∀ sched : List Nat, C3stuck (exec sched C3init) = true) ∧
    (run1 10 C3init).st.effects =
      [Eff.getAssistant, Eff.getLang, Eff.playAttempt "a.webm" none,
       Eff.editMsg "error_no_file", Eff.getLang, Eff.sendMsgE "play_next"] ∧
    (run1 10 C3init).st.queue =
      [{ mediaN3 with message_id := 1 }] := by
  refine ⟨?_, by decide, by decide⟩
  have h0 : ∀ m ∈ C3chain, stepTask 0 m ∈ C3chain := by decide
  have hlen : ∀ m ∈ C3chain, m.tasks.length = 1 := by decide
  have hQ : ∀ m ∈ C3chain, C3stuck m = true := by decide
  have hinit : C3init ∈ C3chain := by decide
  intro sched
  exact hQ _ (exec_mem_of_closed C3chain (closed_of_one_task C3chain hlen h0)
    sched C3init hinit)

/-- C1 counterexample: under the schedule that runs `stop` up to (and
suspended inside) its `leave_call` await and then lets `play_media` run,
both invocations are mid-body at once — after `stop`'s three first steps
and one `play_media` step, each task holds a (different) lock with work
remaining; letting `play_media` run on, its *entire* body (transport play,
`db.add_call`, now-playing message) completes while `stop` still holds its
lock with `leave_call` pending, leaving the persisted call flag re-set in
the middle of the teardown.  This refutes "no two invocations among
play_media and stop for that same chat ever execute concurrently, under
any concurrent invocation pattern". -/
theorem C1_counterexample :
    (exec [0, 0, 0, 1] C1init).tasks.map (fun t => (t.held, t.prog.isEmpty)) =
      [([0], false), ([1], false)] ∧
    (exec ([0, 0, 0] ++ List.replicate 8 1) C1init).tasks =
      [{ prog := [Step.act [Act.logLeaveCall], Step.releaseL], held := [0], waiting := none },
       { prog := [], held := [], waiting := none }] ∧
    (exec ([0, 0, 0] ++ List.replicate 8 1) C1init).st.dbCall = true ∧
    (exec ([0, 0, 0] ++ List.replicate 8 1) C1init).st.effects =
      [Eff.getAssistant, Eff.queueCleared, Eff.removeCallE,
       Eff.getAssistant, Eff.getLang, Eff.playAttempt "p.webm" none,
       Eff.addCallE, Eff.nowPlayingMsg] := by
  refine ⟨by decide, by decide, by decide, by decide⟩

theorem lockFree_spec (ts : List TaskSt) (l : Nat) (h : lockFree ts l = true) :
    ∀ i t, ts.get? i = some t → l ∉ t.held := by
  intro i t hget hmem
  have ht := List.all_eq_true.mp h t (List.get?_mem hget)
  simp only [Bool.not_eq_true'] at ht
  rw [List.contains_eq_any_beq] at ht
  have h2 : (t.held.any fun x => l == x) = true :=
    List.any_eq_true.mpr ⟨l, hmem, by simp⟩
  rw [ht] at h2
  exact Bool.false_ne_true h2

theorem applyAct_entry (a : Act) (p : Option Nat × CallSt) :
    (applyAct a p).1 = p.1 ∨ (applyAct a p).1 = none := by
  cases a <;> simp [applyAct]

theorem applyActs_entry :
    ∀ (acts : List Act) (e : Option Nat) (s : CallSt),
      (applyActs acts e s).1 = e ∨ (applyActs acts e s).1 = none := by
  intro acts
  induction acts with
  | nil => intro e s; exact Or.inl rfl
  | cons a rest ih =>
    intro e s
    rw [applyActs]
    rcases ih (applyAct a (e, s)).1 (applyAct a (e, s)).2 with h | h
    · rw [h]
      exact applyAct_entry a (e, s)
    · exact Or.inr h

theorem get?_set_cases (ls : List TaskSt) (k : Nat) (t tn : TaskSt)
    (hk : ls.get? k = some t) (i : Nat) :
    (ls.set k tn).get? i = if i = k then some tn else ls.get? i := by
  by_cases h : i = k
  · subst h
    rw [if_pos rfl]
    obtain ⟨hlt, -⟩ := List.get?_eq_some.mp hk
    exact List.get?_set_eq_of_lt tn hlt
  · rw [if_neg h]
    exact List.get?_set_ne tn ls (fun he => h he.symm)

/-- Generic preservation: replacing task `k` (and possibly the entry, the
counter and the chat state) preserves `LockInv`, provided every lock the
new task holds is an old one or is fresh-and-unheld, and the new waiting
and entry values are allocated. -/
theorem LockInv_update (m : MConfig) (k : Nat) (t tn : TaskSt)
    (hget : m.tasks.get? k = some t)
    (e2 : Option Nat) (n2 : Nat) (s2 : CallSt)
    (hn2 : m.nextId ≤ n2)
    (hheld : ∀ l, l ∈ tn.held →
        (l ∈ t.held ∨ (l < n2 ∧ ∀ j tj, m.tasks.get? j = some tj → l ∉ tj.held)))
    (hwait : ∀ l, tn.waiting = some l → l < n2)
    (hentry : ∀ l, e2 = some l → l < n2)
    (hinv : LockInv m) :
    LockInv { tasks := m.tasks.set k tn, entry := e2, nextId := n2, st := s2 } := by
  obtain ⟨hd, hb, heB, hwB⟩ := hinv
  refine ⟨?_, ?_, hentry, ?_⟩
  · intro i j ti tj l hgi hgj hmi hmj
    dsimp only at hgi hgj
    rw [get?_set_cases m.tasks k t tn hget i] at hgi
    rw [get?_set_cases m.tasks k t tn hget j] at hgj
    by_cases hi : i = k <;> by_cases hj : j = k
    · rw [hi, hj]
    · rw [if_pos hi] at hgi
      rw [if_neg hj] at hgj
      have hti : tn = ti := Option.some.inj hgi
      subst hti
      rcases hheld l hmi with hold | ⟨-, hfree⟩
      · exact absurd (hd k j t tj l hget hgj hold hmj).symm hj
      · exact absurd hmj (hfree j tj hgj)
    · rw [if_neg hi] at hgi
      rw [if_pos hj] at hgj
      have htj : tn = tj := Option.some.inj hgj
      subst htj
      rcases hheld l hmj with hold | ⟨-, hfree⟩
      · exact absurd (hd i k ti t l hgi hget hmi hold) hi
      · exact absurd hmi (hfree i ti hgi)
    · rw [if_neg hi] at hgi
      rw [if_neg hj] at hgj
      exact hd i j ti tj l hgi hgj hmi hmj
  · intro i ti l hgi hmi
    dsimp only at hgi ⊢
    rw [get?_set_cases m.tasks k t tn hget i] at hgi
    by_cases hi : i = k
    · rw [if_pos hi] at hgi
      have hti : tn = ti := Option.some.inj hgi
      subst hti
      rcases hheld l hmi with hold | ⟨hlt, -⟩
      · exact lt_of_lt_of_le (hb k t l hget hold) hn2
      · exact hlt
    · rw [if_neg hi] at hgi
      exact lt_of_lt_of_le (hb i ti l hgi hmi) hn2
  · intro i ti l hgi hwi
    dsimp only at hgi ⊢
    rw [get?_set_cases m.tasks k t tn hget i] at hgi
    by_cases hi : i = k
    · rw [if_pos hi] at hgi
      have hti : tn = ti := Option.some.inj hgi
      subst hti
      exact hwait l hwi
    · rw [if_neg hi] at hgi
      exact lt_of_lt_of_le (hwB i ti l hgi hwi) hn2

/-- Every scheduler step preserves the lock invariant. -/
theorem stepTask_LockInv (k : Nat) (m : MConfig) (hinv : LockInv m) :
    LockInv (stepTask k m) := by
  obtain ⟨hd, hb, heB, hwB⟩ := hinv
  unfold stepTask
  split
  · exact ⟨hd, hb, heB, hwB⟩
  rename_i t hget
  split
  · exact ⟨hd, hb, heB, hwB⟩
  -- acquire
  case h_2 shead rest hprog =>
    split
    -- waiting on a previously resolved lock object
    case h_1 x l hwt =>
      split
      case isTrue hfree =>
        refine LockInv_update m k t _ hget _ _ _ le_rfl ?_ ?_ heB ⟨hd, hb, heB, hwB⟩
        · intro l2 hl2
          rcases List.mem_cons.mp hl2 with h | h
          · rw [h]
            exact Or.inr ⟨hwB k t l hget hwt, lockFree_spec m.tasks l hfree⟩
          · exact Or.inl h
        · intro l2 h2
          cases h2
      case isFalse hfree => exact ⟨hd, hb, heB, hwB⟩
    -- not waiting yet: resolve the registry entry
    case h_2 x hwt =>
      split
      case h_1 x l hen =>
        split
        case isTrue hfree =>
          refine LockInv_update m k t _ hget _ _ _ le_rfl ?_ ?_ heB ⟨hd, hb, heB, hwB⟩
          · intro l2 hl2
            rcases List.mem_cons.mp hl2 with h | h
            · rw [h]
              exact Or.inr ⟨heB l hen, lockFree_spec m.tasks l hfree⟩
            · exact Or.inl h
          · intro l2 h2
            rw [hwt] at h2
            cases h2
        case isFalse hfree =>
          refine LockInv_update m k t _ hget _ _ _ le_rfl ?_ ?_ heB ⟨hd, hb, heB, hwB⟩
          · intro l2 hl2
            exact Or.inl hl2
          · intro l2 h2
            have h3 : l = l2 := Option.some.inj h2
            subst h3
            exact heB l hen
      case h_2 x hen =>
        refine LockInv_update m k t _ hget _ _ _ (Nat.le_succ _) ?_ ?_ ?_
          ⟨hd, hb, heB, hwB⟩
        · intro l2 hl2
          rcases List.mem_cons.mp hl2 with h | h
          · rw [h]
            refine Or.inr ⟨Nat.lt_succ_self _, ?_⟩
            intro j tj hgj hmem
            exact absurd (hb j tj m.nextId hgj hmem) (lt_irrefl m.nextId)
          · exact Or.inl h
        · intro l2 h2
          rw [hwt] at h2
          cases h2
        · intro l2 h2
          have h3 : m.nextId = l2 := Option.some.inj h2
          subst h3
          exact Nat.lt_succ_self _
  -- releaseL
  case h_3 shead rest hprog =>
    refine LockInv_update m k t _ hget _ _ _ le_rfl ?_ ?_ heB ⟨hd, hb, heB, hwB⟩
    · intro l2 hl2
      exact Or.inl (List.mem_of_mem_tail hl2)
    · intro l2 h2
      exact hwB k t l2 hget h2
  -- act
  case h_4 shead acts rest hprog =>
    refine LockInv_update m k t _ hget _ _ _ le_rfl ?_ ?_ ?_ ⟨hd, hb, heB, hwB⟩
    · intro l2 hl2
      exact Or.inl hl2
    · intro l2 h2
      exact hwB k t l2 hget h2
    · intro l2 h2
      rcases applyActs_entry acts m.entry m.st with h | h
      · rw [h] at h2
        exact heB l2 h2
      · rw [h] at h2
        cases h2

/-- The invariant holds along every schedule. -/
theorem exec_LockInv (sched : List Nat) (m0 : MConfig) (h : LockInv m0) :
    LockInv (exec sched m0) := by
  induction sched generalizing m0 with
  | nil => exact h
  | cons i rest ih =>
    rw [exec_cons]
    exact ih _ (stepTask_LockInv i m0 h)

/-- A clean start (no lock held, nobody waiting, no registry entry)
satisfies the invariant. -/
theorem LockInv_of_clean (m : MConfig)
    (hclean : (∀ t ∈ m.tasks, t.held = [] ∧ t.waiting = none) ∧ m.entry = none) :
    LockInv m := by
  obtain ⟨ht, he⟩ := hclean
  refine ⟨?_, ?_, ?_, ?_⟩
  · intro i j ti tj l hgi hgj hmi hmj
    have := (ht ti (List.get?_mem hgi)).1
    rw [this] at hmi
    cases hmi
  · intro i ti l hgi hmi
    have := (ht ti (List.get?_mem hgi)).1
    rw [this] at hmi
    cases hmi
  · intro l hl
    rw [he] at hl
    cases hl
  · intro i ti l hgi hwi
    have := (ht ti (List.get?_mem hgi)).2
    rw [this] at hwi
    cases hwi

/-! ## Claim C1 theorem -/
/-- C1 (amended): the residual mutual-exclusion guarantee.  Starting from a
clean configuration (no lock held, nobody waiting, no lock entry yet), no
lock object is ever held by two distinct tasks under any schedule — so two
invocations of `play_media`/`stop` that acquire the *same* lock object
never run their critical sections concurrently.  (The claim as stated
fails only because `stop` pops the chat's lock entry before its final
transport call, so an invocation arriving in that window obtains a fresh
lock object and may interleave with the tail of `stop` — see the
counterexample.) -/
theorem C1_same_lock_mutex (sched : List Nat) (m0 : MConfig)
    (hclean : (∀ t ∈ m0.tasks, t.held = [] ∧ t.waiting = none) ∧ m0.entry = none) :
    ∀ i j ti tj l,
      (exec sched m0).tasks.get? i = some ti →
      (exec sched m0).tasks.get? j = some tj →
      l ∈ ti.held → l ∈ tj.held → i = j :=
  (exec_LockInv sched m0 (LockInv_of_clean m0 hclean)).1

/-- C1 witness: the residual guarantee at the concrete C1 scenario and the
very schedule of the counterexample — the two overlapping invocations hold
different lock objects; no lock is doubly held. -/
theorem C1_same_lock_mutex_witness :
    ((∀ t ∈ C1init.tasks, t.held = [] ∧ t.waiting = none) ∧ C1init.entry = none) ∧
    (∀ i j ti tj l,
      (exec [0, 0, 0, 1] C1init).tasks.get? i = some ti →
      (exec [0, 0, 0, 1] C1init).tasks.get? j = some tj →
      l ∈ ti.held → l ∈ tj.held → i = j) :=
  ⟨⟨by decide, rfl⟩, C1_same_lock_mutex [0, 0, 0, 1] C1init ⟨by decide, rfl⟩⟩
